import Mathlib

/-
  Shallow embedding of `untrusted/string.py` from the tawesoft/untrusted
  repository: a taint-tracking wrapper around the primitive `str` type.

  Raw Python `str` values are modelled as Lean `String`; Python's dynamic
  values (as far as the wrapper's operations can observe them) are modelled
  by the inductive `PyVal`; Python exceptions are modelled by `PyErr`, and
  fallible operations return `Except PyErr α`.
-/

/-- The raw primitive text type (`str` in the source). -/
abbrev Str := String

/-- Python exceptions, as far as the wrapper raises or propagates them. -/
inductive PyErr where
  /-- Python `TypeError(msg)`. -/
  | typeError (msg : Str)
  /-- Python `ValueError(msg)` (e.g. a malformed printf template). -/
  | valueError (msg : Str)
  /-- Python `KeyError(key)` from a failed mapping lookup. -/
  | keyError (key : Str)
  /-- a failed `assert` statement -/
  | assertionError
  /-- The `UnsupportedOperationError` of the library, for names outside the allowlist. -/
  | unsupportedOperationError (name : Str)
  deriving Repr, DecidableEq

namespace untrusted

/-- The message of `String._cast_error` in the source. -/
def cast_error : Str := "Implicit cast to/of untrusted.string is not allowed"

/-- The message of the `TypeError` raised by `String.__init__` for a bad argument. -/
def init_error : Str :=
  "Initialiser for an untrusted string must be an instance of str or untrusted.string"

/-- The wrapper class `untrusted.string.String`: an immutable holder of one
raw `str` value (`self._value` in the source). -/
structure String where
  value : Str
  deriving Repr, DecidableEq

/-- Alias from the source: `string = String`. -/
abbrev string := String

/-- The dynamic values the wrapper's operations can receive or produce. -/
inductive PyVal where
  | str (s : Str)
  | ustr (u : String)
  | int (n : Int)
  | bool (b : Bool)
  | none
  | tuple (xs : List PyVal)
  | dict (kvs : List (Str × PyVal))
  deriving Repr

/-- Method `String.__init__`: accepts a raw `str` or an existing `untrusted.string`
(unwrapping it first); anything else raises `TypeError` (the spec's
`ConstructionError`). -/
def String.init : PyVal → Except PyErr String
  | .ustr u => .ok ⟨u.value⟩
  | .str s => .ok ⟨s⟩
  | _ => .error (.typeError init_error)

mutual

/-- Modelled from the spec: `untrusted.util._wrap_arg` (the Argument
Normalizer, whose source file `untrusted/util.py` is not in the snapshot).
Per spec section 4.3: an argument that is itself a Tainted Value is unwrapped to
its raw form; other arguments pass through unchanged; normalization recurses
into variadic argument lists and key/value structures (values unwrapped,
keys left alone). -/
def wrap_arg : PyVal → PyVal
  | .ustr u => .str u.value
  | .tuple xs => .tuple (wrap_arg_all xs)
  | .dict kvs => .dict (wrap_arg_values kvs)
  | v => v

/-- Function `_wrap_arg` mapped over a variadic argument list. -/
def wrap_arg_all : List PyVal → List PyVal
  | [] => []
  | x :: xs => wrap_arg x :: wrap_arg_all xs

/-- Function `_wrap_arg` mapped over the values of a key/value structure. -/
def wrap_arg_values : List (Str × PyVal) → List (Str × PyVal)
  | [] => []
  | (k, v) :: kvs => (k, wrap_arg v) :: wrap_arg_values kvs

end

/-- Method `String.__str__`: unconditionally raises `TypeError(self._cast_error)`
(the spec's `CastError`); used by Python wherever an implicit conversion to
`str` is attempted (e.g. `%s` interpolation). -/
def String.__str__ (_t : String) : Except PyErr Str :=
  .error (.typeError cast_error)

/-- The builtin `str(x)` conversion on the values of `PyVal`, as far as the
wrapper's behaviour depends on it: a raw `str` converts to itself and a
wrapped `untrusted.string` delegates to `String.__str__`, which raises. -/
def pyStr : PyVal → Except PyErr Str
  | .str s => .ok s
  | .ustr u => u.__str__
  | .int n => .ok (toString n)
  | .bool b => .ok (if b then "True" else "False")
  | .none => .ok "None"
  | .tuple _ => .ok "<tuple>"
  | .dict _ => .ok "<dict>"

/-- Method `String.__repr__`: `"<untrusted.string of length %d>" % len(self.value)`. -/
def String.__repr__ (t : String) : Str :=
  "<untrusted.string of length " ++ toString t.value.length ++ ">"

/-- Method `String.__add__`: normalizes the argument with `_wrap_arg`, then delegates
to raw `str` concatenation (`self.value + other`, a `TypeError` when the
normalized argument is not a `str`) and re-wraps the result. -/
def String.__add__ (t : String) (other : PyVal) : Except PyErr String :=
  match wrap_arg other with
  | .str s => .ok ⟨t.value ++ s⟩
  | _ => .error (.typeError "can only concatenate str to str")

/-- Method `String.__radd__`: the reflected concatenation `other + self`, supplied
directly because the underlying `str` implements no `__radd__`; normalizes
the argument and re-wraps `other + self.value`. -/
def String.__radd__ (t : String) (other : PyVal) : Except PyErr String :=
  match wrap_arg other with
  | .str s => .ok ⟨s ++ t.value⟩
  | _ => .error (.typeError "can only concatenate str to str")

/-- Method `String.__bool__`: `not not self.value` — truthiness of the raw value. -/
def String.__bool__ (t : String) : Bool :=
  t.value ≠ ""

/-- The `%s` / `%%` fragment of CPython printf-style formatting over a
character list and a remaining argument list: `%%` emits a literal percent,
`%s` consumes one argument and converts it with `str()` (so a still-wrapped
`untrusted.string` raises its cast error here), surplus or missing arguments
raise `TypeError`. Directives outside this fragment are not modelled and
signal `ValueError`. -/
def printf_chars : List Char → List PyVal → Except PyErr (List Char)
  | [], [] => .ok []
  | [], _ :: _ =>
      .error (.typeError "not all arguments converted during string formatting")
  | '%' :: '%' :: rest, args => do
      let r ← printf_chars rest args
      .ok ('%' :: r)
  | '%' :: 's' :: rest, a :: args => do
      let s ← pyStr a
      let r ← printf_chars rest args
      .ok (s.data ++ r)
  | '%' :: 's' :: _, [] =>
      .error (.typeError "not enough arguments for format string")
  | '%' :: _, _ => .error (.valueError "format character outside the modelled fragment")
  | c :: rest, args => do
      let r ← printf_chars rest args
      .ok (c :: r)

/-- The builtin `str.__mod__` (printf formatting) as far as the wrapper relies
on it: a tuple right operand supplies the argument list, any other value is a
single argument. -/
def str_mod (fmt : Str) (arg : PyVal) : Except PyErr Str := do
  let args := match arg with
    | .tuple xs => xs
    | v => [v]
  let r ← printf_chars fmt.data args
  .ok ⟨r⟩

/-- The subexpression `arg_type(arg)` of `String.__mod__`: the original
argument's type constructor applied to the already-normalized argument. When
the original operand was an `untrusted.string`, that constructor is the
`String` class itself, so the normalized raw value gets wrapped again; for
every other head the constructor is the identity on the normalized value
(`str(str)`, `tuple(tuple)`, `dict(dict)`, `int(int)`, `bool(bool)`). -/
def apply_orig_type (orig normalized : PyVal) : Except PyErr PyVal :=
  match orig with
  | .ustr _ => (String.init normalized).map .ustr
  | _ => .ok normalized

/-- Method `String.__mod__`: records `arg_type = type(arg)`, normalizes the argument
with `_wrap_arg`, evaluates `self.value % arg_type(arg)` and wraps the
result. -/
def String.__mod__ (t : String) (arg : PyVal) : Except PyErr String := do
  let recon ← apply_orig_type arg (wrap_arg arg)
  let r ← str_mod t.value recon
  .ok ⟨r⟩

/-- Mapping lookup used by `str.format_map`: first binding wins, a missing
key raises `KeyError`. -/
def lookup_key : List (Str × PyVal) → Str → Except PyErr PyVal
  | [], k => .error (.keyError k)
  | (k', v) :: rest, k => if k' == k then .ok v else lookup_key rest k

mutual

/-- The `{name}` fragment of CPython `str.format`-style templating as used by
`str.format_map`: plain placeholders without conversion or format specs,
`{{` and `}}` escapes. Each substituted value passes through `format(v, "")`,
which for the modelled values coincides with `str(v)` — so a value that is
still a wrapped `untrusted.string` raises its cast error. -/
def brace_chars (m : List (Str × PyVal)) : List Char → Except PyErr (List Char)
  | [] => .ok []
  | '{' :: '{' :: rest => do
      let r ← brace_chars m rest
      .ok ('{' :: r)
  | '}' :: '}' :: rest => do
      let r ← brace_chars m rest
      .ok ('}' :: r)
  | '{' :: rest => brace_key m [] rest
  | '}' :: _ => .error (.valueError "single closing brace in format string")
  | c :: rest => do
      let r ← brace_chars m rest
      .ok (c :: r)
  termination_by cs => cs.length
  decreasing_by all_goals simp_wf <;> omega

/-- Reading the characters of one `{name}` placeholder (accumulated in
reverse in `acc`) up to its closing brace, then substituting its value. -/
def brace_key (m : List (Str × PyVal)) (acc : List Char) :
    List Char → Except PyErr (List Char)
  | [] => .error (.valueError "expected closing brace")
  | '}' :: rest => do
      let v ← lookup_key m ⟨acc.reverse⟩
      let s ← pyStr v
      let r ← brace_chars m rest
      .ok (s.data ++ r)
  | c :: rest => brace_key m (c :: acc) rest
  termination_by cs => cs.length
  decreasing_by all_goals simp_wf

end

/-- The builtin `str.format_map` restricted to the modelled fragment. -/
def str_format_map (template : Str) (m : List (Str × PyVal)) : Except PyErr Str := do
  let r ← brace_chars m template.data
  .ok ⟨r⟩

/-- Method `String.format_map`: normalizes the mapping with `_wrap_arg` (each value
unwrapped, keys untouched), delegates to `self.value.format_map` and wraps
the result. A non-mapping argument fails in the underlying builtin. -/
def String.format_map (t : String) (mapping : PyVal) : Except PyErr String := do
  match wrap_arg mapping with
  | .dict kvs =>
      let r ← str_format_map t.value kvs
      .ok (⟨r⟩ : String)
  | _ => .error (.typeError "format_map argument must be a mapping")

/-- Modelled from the spec: the scalar-passthrough binding for `__eq__`
generated by `untrusted.util._createMagicPassthroughBindings` (whose source
file `untrusted/util.py` is not in the snapshot). Per spec sections 3 and
4.2: normalize the argument, delegate to the raw value's own equality, return
the plain boolean (Python's `==` yields `False` for a non-`str` operand). -/
def String.__eq__ (t : String) (other : PyVal) : Bool :=
  match wrap_arg other with
  | .str s => t.value == s
  | _ => false

/-- Modelled from the spec: the scalar-passthrough binding for `__ne__`,
the negation of the delegated equality. -/
def String.__ne__ (t : String) (other : PyVal) : Bool :=
  !(t.__eq__ other)

/-- Modelled from the spec: the scalar-passthrough binding for `__lt__`:
normalize the argument, delegate to the raw value's own lexicographic order,
return the plain boolean (`<` between `str` and a non-`str` is a
`TypeError` in the primitive). -/
def String.__lt__ (t : String) (other : PyVal) : Except PyErr Bool :=
  match wrap_arg other with
  | .str s => .ok (decide (t.value < s))
  | _ => .error (.typeError "ordering not supported between these instances")

/-- Modelled from the spec: the scalar-passthrough binding for the
less-or-equal comparison (listed as `lte` in the source's binding list). -/
def String.__lte__ (t : String) (other : PyVal) : Except PyErr Bool :=
  match wrap_arg other with
  | .str s => .ok (decide (t.value ≤ s))
  | _ => .error (.typeError "ordering not supported between these instances")

/-- Modelled from the spec: the scalar-passthrough binding for `__gt__`. -/
def String.__gt__ (t : String) (other : PyVal) : Except PyErr Bool :=
  match wrap_arg other with
  | .str s => .ok (decide (s < t.value))
  | _ => .error (.typeError "ordering not supported between these instances")

/-- Modelled from the spec: the scalar-passthrough binding for the
greater-or-equal comparison (listed as `gte` in the source's binding list). -/
def String.__gte__ (t : String) (other : PyVal) : Except PyErr Bool :=
  match wrap_arg other with
  | .str s => .ok (decide (s ≤ t.value))
  | _ => .error (.typeError "ordering not supported between these instances")

/-- Model of the builtin `hash` on raw `str` values (one fixed process-wide
hash function; its exact values are irrelevant, only delegation to it is). -/
def str_hash (s : Str) : UInt64 := s.hash

/-- Modelled from the spec: the scalar-passthrough binding for `__hash__`:
delegate to the raw value's own hash, return the plain integer. -/
def String.__hash__ (t : String) : UInt64 := str_hash t.value

/-- Modelled from the spec: the scalar-passthrough binding for `__len__`. -/
def String.__len__ (t : String) : Nat := t.value.length

/-- The shape of a sanitizer/validator callable: receives the raw value, the
extra positional arguments and the keyword arguments, returns some value. -/
abbrev EscapeFn := Str → List PyVal → List (Str × PyVal) → PyVal

/-- Method `String.escape`: `result = fn(self.value, *args, **kwargs)`, then
`assert isinstance(result, str)`, then return the raw, unwrapped result. -/
def String.escape (t : String) (fn : EscapeFn)
    (args : List PyVal) (kwargs : List (Str × PyVal)) : Except PyErr Str :=
  match fn t.value args kwargs with
  | .str r => .ok r
  | _ => .error .assertionError

/-- Method `String.valid`: like `escape` but asserts the result is a `bool`. -/
def String.valid (t : String) (fn : EscapeFn)
    (args : List PyVal) (kwargs : List (Str × PyVal)) : Except PyErr Bool :=
  match fn t.value args kwargs with
  | .bool b => .ok b
  | _ => .error .assertionError

/-- Method `String.validate`: returns whatever `fn` returns, unchecked. -/
def String.validate (t : String) (fn : EscapeFn)
    (args : List PyVal) (kwargs : List (Str × PyVal)) : PyVal :=
  fn t.value args kwargs

/-- The right operand of the `/` shorthand, as `String.__truediv__`
distinguishes it: a bare callable (no `__iter__`), an iterable of length 2
`(fn, args)`, or an iterable of any other length, unpacked as
`(fn, args, kwargs)`. -/
inductive DivArg where
  | callable (fn : EscapeFn)
  | pair (fn : EscapeFn) (args : List PyVal)
  | triple (fn : EscapeFn) (args : List PyVal) (kwargs : List (Str × PyVal))

/-- Method `String.__truediv__`: the escape shorthand, delegating every shape of
right operand to `String.escape`. -/
def String.__truediv__ (t : String) (d : DivArg) : Except PyErr Str :=
  match d with
  | .callable fn => t.escape fn [] []
  | .pair fn args => t.escape fn args []
  | .triple fn args kwargs => t.escape fn args kwargs

/-- Table `String._safe_methods`: the allowlist of scalar-passthrough names. -/
def _safe_methods : List Str :=
  ["__eq__", "__gt__", "__gte__", "__len__", "__lt__", "__lte__", "__ne__",
   "__contains__", "__hash__", "count", "endswith", "find", "index",
   "isalnum", "isalpha", "isdecimal", "isdigit", "isidentifier", "islower",
   "isnumeric", "isprintable", "isspace", "istitle", "isupper", "rfind",
   "rindex", "startswith"]

/-- Table `String._simple_wrapped_methods`: the allowlist of same-domain-wrap names
(`format_map` is commented out in the source and so absent here). -/
def _simple_wrapped_methods : List Str :=
  ["__add__", "__mul__", "__rmul__", "__getitem__", "capitalize", "casefold",
   "center", "expandtabs", "format", "join", "ljust", "lower", "lstrip",
   "replace", "rstrip", "strip", "swapcase", "title", "upper", "zfill"]

/-- The keys of `String._complex_wrapped_methods` (their converter values
live in `untrusted.util`, outside the snapshot). -/
def _complex_wrapped_methods : List Str :=
  ["__reversed__", "partition", "rpartition", "split", "rsplit", "splitlines"]

/-- The attribute names defined directly on the `String` class: class
variables, the methods written in the class body, and the magic passthrough
bindings installed by the trailing `setattr` loop. -/
def class_attributes : List Str :=
  ["_keyType", "_cast_error", "_safe_methods", "_simple_wrapped_methods",
   "_complex_wrapped_methods", "__getattr__", "__init__", "__add__",
   "__radd__", "__bool__", "__reversed__", "__mod__", "format_map",
   "__str__", "__repr__", "value", "_valueType", "__truediv__", "escape",
   "valid", "validate", "__contains__", "__hash__", "__eq__", "__gt__",
   "__gte__", "__getitem__", "__len__", "__lt__", "__lte__", "__mul__",
   "__ne__", "__rmul__"]

/-- How an operation name resolves through the wrapper. -/
inductive MethodKind where
  | direct
  | scalarPassthrough
  | sameDomainWrap
  | complexReTaint
  deriving Repr, DecidableEq

/-- Modelled from the spec: `untrusted.util._wrapped_method` (source file
`untrusted/util.py` not in the snapshot), the Classification Table dispatch
of spec section 4.2: a name in `_safe_methods` is scalar-passthrough, in
`_simple_wrapped_methods` same-domain-wrap, in `_complex_wrapped_methods`
complex-reTaint via its converter; a name absent from the table fails with
`UnsupportedOperationError`. -/
def _wrapped_method (name : Str) : Except PyErr MethodKind :=
  if name ∈ _safe_methods then .ok .scalarPassthrough
  else if name ∈ _simple_wrapped_methods then .ok .sameDomainWrap
  else if name ∈ _complex_wrapped_methods then .ok .complexReTaint
  else .error (.unsupportedOperationError name)

/-- Python attribute lookup on a `String` instance: a name defined directly
on the class is found there; only otherwise does `String.__getattr__` run,
which hands the name to `untrusted.util._wrapped_method`. -/
def getattr (name : Str) : Except PyErr MethodKind :=
  if name ∈ class_attributes then .ok .direct
  else _wrapped_method name

/-- Whether `String.__init__` accepts a value: exactly the raw `str` values
and the existing `untrusted.string` instances. -/
def accepted_by_init : PyVal → Bool
  | .str _ => true
  | .ustr _ => true
  | _ => false

end untrusted

open untrusted

/-- C1: for every raw string `s`, implicit conversion of `String(s)` to the
raw string type — its stringification `String.__str__`, also as reached by the
builtin `str()` and by a `%s` interpolation context — does not return the raw
value but fails with the `CastError`, i.e. the `TypeError` carrying
`String._cast_error`. -/
theorem implicit_cast_fails (s : Str) :
    untrusted.String.__str__ ⟨s⟩ = .error (.typeError cast_error) ∧
    pyStr (.ustr ⟨s⟩) = .error (.typeError cast_error) ∧
    str_mod "%s" (.ustr ⟨s⟩) = .error (.typeError cast_error) :=
  ⟨rfl, rfl, rfl⟩

/-- C2: construction is idempotent — `String(String(s))` unwraps its argument
rather than double-wrapping, so it equals `String(s)` outright (hence behaves
identically under every operation) and both hold the raw value `s`. -/
theorem construction_idempotent (s : Str) :
    untrusted.String.init (.str s) = .ok ⟨s⟩ ∧
    untrusted.String.init (.ustr ⟨s⟩) = .ok ⟨s⟩ ∧
    untrusted.String.init (.ustr ⟨s⟩) = untrusted.String.init (.str s) ∧
    (untrusted.String.mk s).value = s :=
  ⟨rfl, rfl, rfl, rfl⟩

/-- C3: `String(x)` succeeds exactly when `x` is a raw `str` or an existing
`untrusted.string`; for every other value (e.g. `String(42)`) it fails with
the `ConstructionError` (the `TypeError` of `String.__init__`). -/
theorem construction_allowlist (x : PyVal) :
    (accepted_by_init x = true → ∃ t, untrusted.String.init x = .ok t) ∧
    (accepted_by_init x = false →
      untrusted.String.init x = .error (.typeError init_error)) := by
  cases x <;> simp [accepted_by_init, untrusted.String.init]

/-- Witness for C3 at the concrete inputs `42` and `"a"`. -/
theorem construction_allowlist_witness :
    untrusted.String.init (.int 42) = .error (.typeError init_error) ∧
    ∃ t, untrusted.String.init (.str "a") = .ok t :=
  ⟨(construction_allowlist (.int 42)).2 rfl,
   (construction_allowlist (.str "a")).1 rfl⟩

/-- C4 (failing input): `String("%s") % String("a")` does not yield
`String("a")` — `String.__mod__` re-wraps its already-normalized argument via
`arg_type(arg)`, and `%s`-formatting of the re-wrapped value invokes
`String.__str__`, so the operation fails with the cast error even though the
raw operation `"%s" % "a"` (and the same call with the raw argument `"a"`)
returns `"a"`. Wrapping the argument therefore changes the result, against
the claim. -/
theorem mod_wrapped_arg_cast_error :
    untrusted.String.__mod__ ⟨"%s"⟩ (.ustr ⟨"a"⟩) = .error (.typeError cast_error) ∧
    str_mod "%s" (.str "a") = .ok "a" ∧
    untrusted.String.__mod__ ⟨"%s"⟩ (.str "a") = .ok ⟨"a"⟩ :=
  ⟨rfl, rfl, rfl⟩

/-- C5: equality, ordering and hashing on a wrapped value delegate to the raw
string's own semantics — each scalar-passthrough returns the same plain
unwrapped scalar as the raw operation, `String(s)` compares equal to
`String(t)` exactly when `s = t`, and the hash of the wrapped value is the
raw value's hash. -/
theorem scalar_passthrough_delegates (s t : Str) :
    untrusted.String.__eq__ ⟨s⟩ (.ustr ⟨t⟩) = (s == t) ∧
    untrusted.String.__eq__ ⟨s⟩ (.str t) = (s == t) ∧
    untrusted.String.__ne__ ⟨s⟩ (.ustr ⟨t⟩) = !(s == t) ∧
    untrusted.String.__lt__ ⟨s⟩ (.ustr ⟨t⟩) = .ok (decide (s < t)) ∧
    untrusted.String.__lt__ ⟨s⟩ (.str t) = .ok (decide (s < t)) ∧
    untrusted.String.__lte__ ⟨s⟩ (.ustr ⟨t⟩) = .ok (decide (s ≤ t)) ∧
    untrusted.String.__gt__ ⟨s⟩ (.ustr ⟨t⟩) = .ok (decide (t < s)) ∧
    untrusted.String.__gte__ ⟨s⟩ (.ustr ⟨t⟩) = .ok (decide (t ≤ s)) ∧
    untrusted.String.__hash__ ⟨s⟩ = str_hash s ∧
    untrusted.String.__len__ ⟨s⟩ = s.length ∧
    (untrusted.String.__eq__ ⟨s⟩ (.ustr ⟨t⟩) = true ↔ s = t) := by
  refine ⟨rfl, rfl, rfl, rfl, rfl, rfl, rfl, rfl, rfl, rfl, ?_⟩
  simp [untrusted.String.__eq__, wrap_arg]

/-- Witness for C5 at the concrete pair `"ab"`, `"ab"`. -/
theorem scalar_passthrough_delegates_witness :
    untrusted.String.__eq__ ⟨"ab"⟩ (.ustr ⟨"ab"⟩) = true :=
  ((scalar_passthrough_delegates "ab" "ab").2.2.2.2.2.2.2.2.2.2).2 rfl

/-- C6: `escape(fn, ...)` invokes `fn` on the raw value `s` (first argument)
with the extra arguments; when `fn` returns a raw string it returns exactly
that string, raw and unwrapped; when `fn` returns anything that is not a raw
string it fails with the fatal assertion. -/
theorem escape_gateway_contract (s : Str) (fn : EscapeFn)
    (args : List PyVal) (kwargs : List (Str × PyVal)) :
    (∀ r : Str, fn s args kwargs = .str r →
      untrusted.String.escape ⟨s⟩ fn args kwargs = .ok r) ∧
    ((∀ r : Str, fn s args kwargs ≠ .str r) →
      untrusted.String.escape ⟨s⟩ fn args kwargs = .error .assertionError) := by
  constructor
  · intro r h
    simp [untrusted.String.escape, h]
  · intro h
    unfold untrusted.String.escape
    cases hfn : fn s args kwargs <;> first | rfl | exact absurd hfn (h _)

/-- Witness for C6: a sanitizer returning a string gives back exactly that
raw string; one returning an integer trips the assertion. -/
theorem escape_gateway_contract_witness :
    untrusted.String.escape ⟨"<b>"⟩ (fun v _ _ => .str (v ++ "!")) [] [] = .ok "<b>!" ∧
    untrusted.String.escape ⟨"x"⟩ (fun _ _ _ => .int 0) [] [] = .error .assertionError :=
  ⟨(escape_gateway_contract "<b>" (fun v _ _ => .str (v ++ "!")) [] []).1 "<b>!" rfl,
   (escape_gateway_contract "x" (fun _ _ _ => .int 0) [] []).2
     (fun _ h => PyVal.noConfusion h)⟩

/-- C7: the `/` escape shorthand is equivalent to `escape` for every shape of
right operand — a bare callable, a 2-element grouping `(fn, args)`, and a
3-element grouping `(fn, args, kwargs)`. -/
theorem truediv_equiv_escape (t : untrusted.String) (fn : EscapeFn)
    (args : List PyVal) (kwargs : List (Str × PyVal)) :
    untrusted.String.__truediv__ t (.callable fn) = untrusted.String.escape t fn [] [] ∧
    untrusted.String.__truediv__ t (.pair fn args) = untrusted.String.escape t fn args [] ∧
    untrusted.String.__truediv__ t (.triple fn args kwargs) =
      untrusted.String.escape t fn args kwargs :=
  ⟨rfl, rfl, rfl⟩

/-- C8: every operation name absent from the three classification tables and
not defined directly on the class fails with `UnsupportedOperationError`:
nothing outside the allowlist is reachable through the wrapper. -/
theorem undeclared_operation_unsupported (name : Str)
    (h1 : name ∉ untrusted._safe_methods)
    (h2 : name ∉ untrusted._simple_wrapped_methods)
    (h3 : name ∉ untrusted._complex_wrapped_methods)
    (h4 : name ∉ untrusted.class_attributes) :
    getattr name = .error (.unsupportedOperationError name) := by
  unfold getattr _wrapped_method
  rw [if_neg h4, if_neg h1, if_neg h2, if_neg h3]

/-- Witness for C8 at the concrete name `some_undeclared_method`. -/
theorem undeclared_operation_unsupported_witness :
    getattr "some_undeclared_method" =
      .error (.unsupportedOperationError "some_undeclared_method") :=
  undeclared_operation_unsupported "some_undeclared_method"
    (by decide) (by decide) (by decide) (by decide)

/-- C9: the debug representation reveals only the raw value's length, never
its content — equal lengths give byte-identical representations, and a raw
value longer than its whole representation can never occur inside it as a
substring. -/
theorem repr_reveals_only_length (s t : Str) :
    (s.length = t.length →
      untrusted.String.__repr__ ⟨s⟩ = untrusted.String.__repr__ ⟨t⟩) ∧
    ((untrusted.String.__repr__ ⟨s⟩).data.length < s.data.length →
      ¬ ∃ pre post, (untrusted.String.__repr__ ⟨s⟩).data = pre ++ s.data ++ post) := by
  constructor
  · intro h
    unfold untrusted.String.__repr__
    rw [h]
  · rintro hlen ⟨pre, post, heq⟩
    have hlen2 := congrArg List.length heq
    rw [List.length_append, List.length_append] at hlen2
    omega

/-- Witness for C9: two distinct 2-character values share one representation,
and a 40-character value does not occur inside its own representation. -/
theorem repr_reveals_only_length_witness :
    untrusted.String.__repr__ ⟨"ab"⟩ = untrusted.String.__repr__ ⟨"cd"⟩ ∧
    ¬ ∃ pre post, (untrusted.String.__repr__
        ⟨"aaaaaaaaaaaaaaaaaaaaaaaaaaaaaaaaaaaaaaaa"⟩).data =
      pre ++ ("aaaaaaaaaaaaaaaaaaaaaaaaaaaaaaaaaaaaaaaa" : Str).data ++ post :=
  ⟨(repr_reveals_only_length "ab" "cd").1 rfl,
   (repr_reveals_only_length "aaaaaaaaaaaaaaaaaaaaaaaaaaaaaaaaaaaaaaaa" "").2
     (by decide)⟩

/-- C10: reflected concatenation re-taints — `a + String(s)` with the raw
value on the left succeeds and yields a wrapped value holding `a + s`. -/
theorem radd_retaints (a s : Str) :
    untrusted.String.__radd__ ⟨s⟩ (.str a) = .ok ⟨a ++ s⟩ :=
  rfl
